import Mathlib

/-!
Verification of the environment-merger script
`src/scripts/update-lambda-env-sms.py`.

The script is a linear pipeline: fetch the current environment variables
of one Lambda function (via a subprocess call to the AWS CLI), merge in a
fixed SMS configuration patch (Python dict union, patch wins), submit the
merged set as the full new configuration, and report each key of the
confirmed set with masking for sensitive-looking keys.

Environment sets are embedded as association lists `List (String × String)`
with Python-dict semantics (`List.lookup` finds the binding).  The parsed
output of a provider call is embedded as a small `Json` value type, and the
whole script as a pure function `runScript` of the two subprocess results.
-/

namespace SmsEnv

/-- An environment set: a mapping from variable name to value, embedded as
an association list in insertion order, as a Python dict holds it. -/
abbrev Env := List (String × String)

/-- The hard-coded SMS configuration patch (`sms_config`, lines 15-21). -/
def sms_config : Env :=
  [("SMS_API_URL_NEW", "http://4sms.alp-ts.com/api/sms/v1.0/send-sms"),
   ("SMS_API_ENITYID", "1701173389563945545"),
   ("SMS_API_TOKEN", "EVLZ8267TMY1O2Z"),
   ("SMS_API_KEY", "/BR2+k;L(-aPKA@r%5SO*GzcCm8&Hg6o"),
   ("SMS_HEADER_CENTER_ID", "SCRPMT")]

/-- One entry of the left dict after the right dict `b` has been overlaid:
if `b` binds the same key, the value is replaced by the value of `b`. -/
def applyPatch (b : Env) (kv : String × String) : String × String :=
  match b.lookup kv.1 with
  | some v => (kv.1, v)
  | none => kv

/-- Python dict union with right precedence: the value semantics of
`updated_env` (line 43), which merges `current_env` with `sms_config`.
Entries of `a` keep their position, with the value of `b` where the key
collides; entries of `b` whose key is new are appended. -/
def dictMerge (a b : Env) : Env :=
  a.map (applyPatch b) ++ b.filter (fun kv => (a.lookup kv.1).isNone)

/-- Does the pattern occur as a contiguous run of characters?  Embeds the
Python substring test `pat in s` at the character-list level. -/
def subOccurs (pat : List Char) : List Char → Bool
  | [] => pat.isEmpty
  | c :: rest => pat.isPrefixOf (c :: rest) || subOccurs pat rest

/-- Python's substring containment `pat in s` on strings. -/
def pyIn (pat s : String) : Bool := subOccurs pat.data s.data

/-- The sensitive-key test of line 68:
`"KEY" in key or "TOKEN" in key or "SECRET" in key or "PRIVATE" in key`. -/
def sensitiveKey (key : String) : Bool :=
  pyIn "KEY" key || pyIn "TOKEN" key || pyIn "SECRET" key || pyIn "PRIVATE" key

/-- The display value of lines 68-71: a sensitive key's value is shown as
its first 10 characters followed by "..." when longer than 10 characters,
as the fixed mask "***" otherwise; other values are shown in full. -/
def display_value (key value : String) : String :=
  if sensitiveKey key then
    if value.length > 10 then String.mk (value.data.take 10) ++ "..." else "***"
  else value

/-- `sorted(keys)` of line 66: ascending lexicographic sort. -/
def sortKeys (l : List String) : List String :=
  l.insertionSort (fun a b => a ≤ b)

/-- One line of the report loop (line 72). -/
def reportLine (vars : Env) (k : String) : String :=
  "   ✅ " ++ k ++ ": " ++ display_value k ((vars.lookup k).getD "")

/-- The report output of lines 66-72: one line per key of the confirmed
updated set, iterated in sorted key order. -/
def reportLines (vars : Env) : List String :=
  (sortKeys (vars.map Prod.fst)).map (reportLine vars)

/-- The structured (JSON) values relevant to the script: the parsed output
of the two provider calls.  `null` is the JSON literal null; `obj` a JSON
object; `str` a JSON string. -/
inductive Json where
  | null : Json
  | str : String → Json
  | obj : List (String × Json) → Json

/-- Reads a JSON value as an environment set: it must be an object all of
whose values are strings.  `Json.null` (a function with no environment
variables) is not an environment set: the script's `len(current_env)` and
dict-merge on it raise, so `none` here marks the abrupt-termination path. -/
def Json.asEnv : Json → Option Env
  | .obj fields =>
      fields.foldr
        (fun kv acc =>
          match kv.2, acc with
          | .str s, some l => some ((kv.1, s) :: l)
          | _, _ => none)
        (some [])
  | _ => none

/-- Field access `j["k"]` on a parsed JSON object. -/
def Json.getField : Json → String → Option Json
  | .obj fields, k => fields.lookup k
  | _, _ => none

/-- `updated_config["Environment"]["Variables"]` (line 66), read as an
environment set; `none` marks the paths where the subscript raises. -/
def confirmedVars (j : Json) : Option Env :=
  match j.getField "Environment" with
  | some e =>
      match e.getField "Variables" with
      | some v => v.asEnv
      | none => none
  | none => none

/-- The inputs the script's behaviour depends on: the completion status,
parsed structured output and error text of the fetch call, and the same for
the update call. -/
structure RunInput where
  fetchRC : Int
  fetchOut : Json
  fetchErr : String
  updRC : Int
  updOut : Json
  updErr : String

/-- How a run ends: a clean interpreter exit with the given status, or an
abrupt termination by an uncaught exception. -/
inductive Outcome where
  | exit : Nat → Outcome
  | crash : Outcome
deriving DecidableEq

/-- The observable result of a run: the outcome, the strings the script
passes to `print` (all of which go to standard output), the lines the
script itself writes to standard error, and the environment set passed to
the update-configuration call (`none` when no update call is attempted).
On `Outcome.crash` the interpreter's traceback, which is not printed by the
script's own code, is outside the model. -/
structure RunResult where
  outcome : Outcome
  stdout : List String
  stderr : List String
  submitted : Option Env
deriving DecidableEq

/-- The progress line of line 24. -/
def fetchLine : String :=
  "🔍 Fetching current environment variables from scrapmate-node-api-production..."

/-- The progress lines printed between a successful fetch and the update
call (lines 40-48). -/
def preLines (env updated : Env) : List String :=
  [fetchLine,
   "✅ Current environment variables: " ++ toString env.length ++ " variables",
   "✅ Updated environment variables: " ++ toString updated.length ++ " variables",
   "   Added SMS configuration variables",
   "\n📤 Updating Lambda function environment variables..."]

/-- The two success lines printed before the report loop (lines 64-65). -/
def successHeader : List String :=
  ["✅ Successfully updated Lambda function!",
   "\n📋 Updated environment variables:"]

/-- The whole script (lines 24-72) as a pure function of the two provider
call results.  Every `print` of the script targets standard output, so the
script writes nothing to standard error on any path. -/
def runScript (inp : RunInput) : RunResult :=
  if inp.fetchRC ≠ 0 then
    { outcome := .exit 1,
      stdout := [fetchLine,
                 "❌ Error fetching current configuration: " ++ inp.fetchErr],
      stderr := [],
      submitted := none }
  else
    match inp.fetchOut.asEnv with
    | none =>
        { outcome := .crash, stdout := [fetchLine], stderr := [], submitted := none }
    | some env =>
        let updated := dictMerge env sms_config
        if inp.updRC ≠ 0 then
          { outcome := .exit 1,
            stdout := preLines env updated ++
              ["❌ Error updating configuration: " ++ inp.updErr],
            stderr := [],
            submitted := some updated }
        else
          match confirmedVars inp.updOut with
          | none =>
              { outcome := .crash,
                stdout := preLines env updated ++ successHeader,
                stderr := [],
                submitted := some updated }
          | some vars =>
              { outcome := .exit 0,
                stdout := preLines env updated ++ successHeader ++ reportLines vars,
                stderr := [],
                submitted := some updated }

/-! ### Lookup semantics of the dict merge -/

theorem lookup_append (l₁ l₂ : Env) (k : String) :
    (l₁ ++ l₂).lookup k = (l₁.lookup k).or (l₂.lookup k) := by
  induction l₁ with
  | nil => simp
  | cons kv t ih =>
    cases kv with
    | mk k₁ v₁ => cases h : k == k₁ <;> simp [List.lookup_cons, h, ih]

theorem applyPatch_fst (b : Env) (kv : String × String) :
    (applyPatch b kv).1 = kv.1 := by
  unfold applyPatch
  cases b.lookup kv.1 <;> rfl

theorem lookup_map_applyPatch (a b : Env) (k : String) :
    (a.map (applyPatch b)).lookup k =
      (a.lookup k).map (fun w => (b.lookup k).getD w) := by
  induction a with
  | nil => rfl
  | cons kv t ih =>
    cases kv with
    | mk k₁ v₁ =>
      rw [List.map_cons]
      cases hb : b.lookup k₁ with
      | none =>
        cases h : k == k₁ with
        | false => simpa [applyPatch, hb, List.lookup_cons, h] using ih
        | true =>
          have hk : k = k₁ := eq_of_beq h
          subst hk
          simp [applyPatch, hb, List.lookup_cons]
      | some v =>
        cases h : k == k₁ with
        | false => simpa [applyPatch, hb, List.lookup_cons, h] using ih
        | true =>
          have hk : k = k₁ := eq_of_beq h
          subst hk
          simp [applyPatch, hb, List.lookup_cons]

theorem lookup_filter_of_none (a b : Env) (k : String)
    (h : a.lookup k = none) :
    (b.filter (fun kv => (a.lookup kv.1).isNone)).lookup k = b.lookup k := by
  induction b with
  | nil => rfl
  | cons kv t ih =>
    cases kv with
    | mk k₁ v₁ =>
      cases hk : k == k₁ with
      | false =>
        cases hp : (a.lookup k₁).isNone <;>
          simp [List.filter_cons, hp, List.lookup_cons, hk, ih]
      | true =>
        have hkk : k = k₁ := eq_of_beq hk
        subst hkk
        simp [List.filter_cons, h, List.lookup_cons]

/-- The value semantics of the Python dict union `dictMerge a b`: the right
operand wins on key collision, keys of only one operand keep their value,
and a key of neither operand is absent from the result. -/
theorem dictMerge_lookup (a b : Env) (k : String) :
    (dictMerge a b).lookup k = (b.lookup k).or (a.lookup k) := by
  unfold dictMerge
  rw [lookup_append, lookup_map_applyPatch]
  cases ha : a.lookup k with
  | some w => cases hb : b.lookup k <;> simp [Option.or]
  | none =>
    rw [lookup_filter_of_none a b k ha]
    cases hb : b.lookup k <;> simp [Option.or]

theorem lookup_isSome_of_mem {l : Env} {kv : String × String} (h : kv ∈ l) :
    (l.lookup kv.1).isSome := by
  induction l with
  | nil => cases h
  | cons hd t ih =>
    cases hd with
    | mk k₁ v₁ =>
      cases hk : kv.1 == k₁ with
      | true => simp [List.lookup_cons, hk]
      | false =>
        rcases List.mem_cons.mp h with h1 | h1
        · rw [h1] at hk
          simp at hk
        · simpa [List.lookup_cons, hk] using ih h1

theorem mem_keys_iff_lookup_isSome (l : Env) (k : String) :
    k ∈ l.map Prod.fst ↔ (l.lookup k).isSome := by
  induction l with
  | nil => simp
  | cons hd t ih =>
    cases hd with
    | mk k₁ v₁ =>
      cases hk : k == k₁ with
      | true =>
        have : k = k₁ := eq_of_beq hk
        subst this
        simp [List.lookup_cons]
      | false =>
        have : ¬k = k₁ := fun hh => by simp [hh] at hk
        simp [List.lookup_cons, hk, this, ih]

theorem lookup_eq_of_nodup {l : Env} (hn : (l.map Prod.fst).Nodup)
    {kv : String × String} (h : kv ∈ l) : l.lookup kv.1 = some kv.2 := by
  induction l with
  | nil => cases h
  | cons hd t ih =>
    cases hd with
    | mk k₁ v₁ =>
      rcases List.mem_cons.mp h with h1 | h1
      · rw [h1]
        simp [List.lookup_cons]
      · have hn' := hn
        rw [List.map_cons, List.nodup_cons] at hn'
        have hne : kv.1 ≠ k₁ := by
          intro he
          have hmem : kv.1 ∈ t.map Prod.fst := List.mem_map_of_mem Prod.fst h1
          exact hn'.1 (he ▸ hmem)
        have hb : (kv.1 == k₁) = false := by simp [hne]
        rw [List.lookup_cons]
        simp only [hb]
        exact ih hn'.2 h1

theorem applyPatch_idem (b : Env) (kv : String × String) :
    applyPatch b (applyPatch b kv) = applyPatch b kv := by
  unfold applyPatch
  cases h : b.lookup kv.1 with
  | none => simp [h]
  | some v => simp [h]

theorem applyPatch_eq_self (b : Env) (kv : String × String)
    (h : b.lookup kv.1 = some kv.2) : applyPatch b kv = kv := by
  unfold applyPatch
  rw [h]

/-- Merging the same dict twice on the right is the same as merging it
once, provided the right dict has no duplicate keys (a Python dict never
does).  This is list-level equality: the results agree entry for entry. -/
theorem dictMerge_idem (a b : Env) (hb : (b.map Prod.fst).Nodup) :
    dictMerge (dictMerge a b) b = dictMerge a b := by
  have hfil : b.filter (fun kv => ((dictMerge a b).lookup kv.1).isNone) = [] := by
    rw [List.filter_eq_nil_iff]
    intro kv hkv
    rw [dictMerge_lookup]
    have hs : (b.lookup kv.1).isSome := lookup_isSome_of_mem hkv
    cases hb1 : b.lookup kv.1 with
    | none => rw [hb1] at hs; cases hs
    | some v => simp [Option.or]
  have hmap : (dictMerge a b).map (applyPatch b) = dictMerge a b := by
    unfold dictMerge
    rw [List.map_append, List.map_map]
    congr 1
    · exact List.map_congr_left fun kv _ => applyPatch_idem b kv
    · have hid : ∀ kv ∈ b.filter (fun kv => (a.lookup kv.1).isNone),
          applyPatch b kv = kv := by
        intro kv hkv
        exact applyPatch_eq_self b kv (lookup_eq_of_nodup hb (List.mem_of_mem_filter hkv))
      rw [List.map_congr_left hid]
      exact List.map_id _
  show (dictMerge a b).map (applyPatch b) ++
      b.filter (fun kv => ((dictMerge a b).lookup kv.1).isNone) = dictMerge a b
  rw [hfil, List.append_nil, hmap]

/-! ### Path lemmas for the script -/

theorem runScript_fetch_fail (inp : RunInput) (h : inp.fetchRC ≠ 0) :
    runScript inp =
      { outcome := .exit 1,
        stdout := [fetchLine,
                   "❌ Error fetching current configuration: " ++ inp.fetchErr],
        stderr := [],
        submitted := none } := by
  simp [runScript, h]

theorem runScript_fetch_null (inp : RunInput) (h0 : inp.fetchRC = 0)
    (h1 : inp.fetchOut.asEnv = none) :
    runScript inp =
      { outcome := .crash, stdout := [fetchLine], stderr := [], submitted := none } := by
  simp [runScript, h0, h1]

theorem runScript_update_fail (inp : RunInput) (env : Env)
    (h0 : inp.fetchRC = 0) (h1 : inp.fetchOut.asEnv = some env)
    (h2 : inp.updRC ≠ 0) :
    runScript inp =
      { outcome := .exit 1,
        stdout := preLines env (dictMerge env sms_config) ++
          ["❌ Error updating configuration: " ++ inp.updErr],
        stderr := [],
        submitted := some (dictMerge env sms_config) } := by
  simp [runScript, h0, h1, h2]

theorem runScript_confirm_bad (inp : RunInput) (env : Env)
    (h0 : inp.fetchRC = 0) (h1 : inp.fetchOut.asEnv = some env)
    (h2 : inp.updRC = 0) (h3 : confirmedVars inp.updOut = none) :
    runScript inp =
      { outcome := .crash,
        stdout := preLines env (dictMerge env sms_config) ++ successHeader,
        stderr := [],
        submitted := some (dictMerge env sms_config) } := by
  simp [runScript, h0, h1, h2, h3]

theorem runScript_success (inp : RunInput) (env vars : Env)
    (h0 : inp.fetchRC = 0) (h1 : inp.fetchOut.asEnv = some env)
    (h2 : inp.updRC = 0) (h3 : confirmedVars inp.updOut = some vars) :
    runScript inp =
      { outcome := .exit 0,
        stdout := preLines env (dictMerge env sms_config) ++ successHeader ++
          reportLines vars,
        stderr := [],
        submitted := some (dictMerge env sms_config) } := by
  simp [runScript, h0, h1, h2, h3]

theorem submitted_of_fetch_ok (inp : RunInput) (env : Env)
    (h0 : inp.fetchRC = 0) (h1 : inp.fetchOut.asEnv = some env) :
    (runScript inp).submitted = some (dictMerge env sms_config) := by
  by_cases h2 : inp.updRC ≠ 0
  · rw [runScript_update_fail inp env h0 h1 h2]
  · rw [Classical.not_not] at h2
    cases h3 : confirmedVars inp.updOut with
    | none => rw [runScript_confirm_bad inp env h0 h1 h2 h3]
    | some vars => rw [runScript_success inp env vars h0 h1 h2 h3]

/-! ### Display-value lemmas -/

theorem display_value_sensitive_long (k v : String)
    (hs : sensitiveKey k = true) (hl : v.length > 10) :
    display_value k v = String.mk (v.data.take 10) ++ "..." := by
  simp [display_value, hs, hl]

theorem display_value_sensitive_short (k v : String)
    (hs : sensitiveKey k = true) (hl : v.length ≤ 10) :
    display_value k v = "***" := by
  have : ¬v.length > 10 := by omega
  simp [display_value, hs, this]

theorem display_value_plain (k v : String) (hs : sensitiveKey k = false) :
    display_value k v = v := by
  simp [display_value, hs]

theorem display_value_length_13 (k v : String)
    (hs : sensitiveKey k = true) (hl : v.length > 10) :
    (display_value k v).length = 13 := by
  rw [display_value_sensitive_long k v hs hl, String.length_append]
  have h1 : (String.mk (v.data.take 10)).length = (v.data.take 10).length := rfl
  have h2 : (v.data.take 10).length = min 10 v.data.length := List.length_take 10 v.data
  have h3 : v.length = v.data.length := rfl
  have h4 : ("..." : String).length = 3 := rfl
  omega

/-! ### Claim theorems -/

/-- C1: for every environment set `a` and patch `b` (in particular the
fixed `sms_config`), the merge is exactly the left-biased union with right
precedence: the result binds every key of `a` not in `b` to its old value,
every key of `b` to the value of `b`, and binds no other key; being a pure
Lean function, the merge is deterministic and side-effect free. -/
theorem merge_left_biased_union (a b : Env) (k : String) :
    (dictMerge a b).lookup k = (b.lookup k).or (a.lookup k) ∧
    (k ∈ (dictMerge a b).map Prod.fst ↔
      k ∈ a.map Prod.fst ∨ k ∈ b.map Prod.fst) := by
  constructor
  · exact dictMerge_lookup a b k
  · rw [mem_keys_iff_lookup_isSome, mem_keys_iff_lookup_isSome,
      mem_keys_iff_lookup_isSome, dictMerge_lookup]
    cases b.lookup k <;> cases a.lookup k <;> simp [Option.or]

/-- C2: whenever the script submits an environment set to the
update-configuration call, that set is a superset of the fetched set (no
pre-existing key is dropped by the full-replacement write), and on every
key of the patch the submitted value is the patch's value. -/
theorem submitted_superset (inp : RunInput) (env S : Env)
    (h1 : inp.fetchOut.asEnv = some env)
    (h2 : (runScript inp).submitted = some S) :
    (∀ k, k ∈ env.map Prod.fst → k ∈ S.map Prod.fst) ∧
    (∀ k v, sms_config.lookup k = some v → S.lookup k = some v) := by
  by_cases hf : inp.fetchRC = 0
  · have hsub := submitted_of_fetch_ok inp env hf h1
    rw [h2] at hsub
    injection hsub with hS
    subst hS
    constructor
    · intro k hk
      rw [mem_keys_iff_lookup_isSome] at hk ⊢
      rw [dictMerge_lookup]
      cases hb : sms_config.lookup k with
      | none => rw [Option.none_or]; exact hk
      | some v => simp [Option.or]
    · intro k v hv
      rw [dictMerge_lookup, hv, Option.or_some]
  · rw [runScript_fetch_fail inp hf] at h2
    simp at h2

/-- C2 witness: at a concrete fetched set with one key, the submitted set
keeps the key and carries the patch's API-key value. -/
theorem submitted_superset_witness :
    "FOO" ∈ (dictMerge [("FOO", "bar")] sms_config).map Prod.fst ∧
    (dictMerge [("FOO", "bar")] sms_config).lookup "SMS_API_KEY" =
      some "/BR2+k;L(-aPKA@r%5SO*GzcCm8&Hg6o" := by
  have h := submitted_superset
    ⟨0, Json.obj [("FOO", Json.str "bar")], "", 1, Json.null, "err"⟩
    [("FOO", "bar")] (dictMerge [("FOO", "bar")] sms_config)
    (by rfl) (by rfl)
  exact ⟨h.1 "FOO" (by decide), h.2 "SMS_API_KEY" _ (by rfl)⟩

/-- C3 counterexample: on a failing fetch (status 1, provider error text
"boom") the script exits with status 1 and attempts no update call, but the
diagnostic line carrying the provider's error text is passed to `print`
(standard output); the script writes nothing to standard error, so the
error text is not on the standard error stream as the claim states. -/
theorem fetch_fail_stderr_cex :
    (runScript ⟨1, Json.null, "boom", 0, Json.null, ""⟩).outcome = Outcome.exit 1 ∧
    (runScript ⟨1, Json.null, "boom", 0, Json.null, ""⟩).submitted = none ∧
    (runScript ⟨1, Json.null, "boom", 0, Json.null, ""⟩).stderr = [] ∧
    ¬ ("❌ Error fetching current configuration: boom" ∈
        (runScript ⟨1, Json.null, "boom", 0, Json.null, ""⟩).stderr) ∧
    ("❌ Error fetching current configuration: boom" ∈
        (runScript ⟨1, Json.null, "boom", 0, Json.null, ""⟩).stdout) := by
  rw [runScript_fetch_fail _ (by decide)]
  refine ⟨rfl, rfl, rfl, by simp, by simp⟩

/-- C3 amended: if the fetch call completes with a non-zero status, then no
update call is attempted and the process exits with status 1; the
diagnostic message carrying the provider's error text goes to standard
output (not standard error — every `print` of the script targets stdout,
and the script writes nothing to stderr). -/
theorem fetch_fail_no_submit (inp : RunInput) (h : inp.fetchRC ≠ 0) :
    (runScript inp).submitted = none ∧
    (runScript inp).outcome = Outcome.exit 1 ∧
    ("❌ Error fetching current configuration: " ++ inp.fetchErr) ∈
      (runScript inp).stdout ∧
    (runScript inp).stderr = [] := by
  rw [runScript_fetch_fail inp h]
  exact ⟨rfl, rfl, by simp, rfl⟩

/-- C3 witness: the amended behaviour at a concrete failing fetch. -/
theorem fetch_fail_no_submit_witness :
    (runScript ⟨1, Json.null, "boom", 0, Json.null, ""⟩).submitted = none ∧
    (runScript ⟨1, Json.null, "boom", 0, Json.null, ""⟩).outcome = Outcome.exit 1 ∧
    ("❌ Error fetching current configuration: boom" ∈
      (runScript ⟨1, Json.null, "boom", 0, Json.null, ""⟩).stdout) ∧
    (runScript ⟨1, Json.null, "boom", 0, Json.null, ""⟩).stderr = [] :=
  fetch_fail_no_submit ⟨1, Json.null, "boom", 0, Json.null, ""⟩ (by decide)

/-- C4 counterexample: the key "SMS_API_KEY" contains "KEY" and the value
"abcdefghij..." has 13 > 10 characters, yet the display value equals the
full literal value, because the value's own last three characters are the
ellipsis the masking appends. -/
theorem masking_can_equal_full_value :
    sensitiveKey "SMS_API_KEY" = true ∧
    ("abcdefghij...".length > 10) ∧
    display_value "SMS_API_KEY" "abcdefghij..." = "abcdefghij..." := by
  refine ⟨by decide, by decide, ?_⟩
  rfl

/-- C4 amended: for a key containing a sensitive substring and a value
longer than 10 characters, the display value is the first 10 characters
followed by "..."; it differs from the full literal value whenever the
value's length is not 13 (coincidence is possible only for 13-character
values ending in "..."). -/
theorem masking_hides_long_values (k v : String)
    (hs : sensitiveKey k = true) (hl : v.length > 10) :
    display_value k v = String.mk (v.data.take 10) ++ "..." ∧
    (v.length ≠ 13 → display_value k v ≠ v) := by
  refine ⟨display_value_sensitive_long k v hs hl, ?_⟩
  intro h13 heq
  have h := display_value_length_13 k v hs hl
  rw [heq] at h
  exact h13 h

/-- C4 witness: the amended masking at the script's own hard-coded API key
value (32 characters): the display value is not the full value. -/
theorem masking_hides_long_values_witness :
    sensitiveKey "SMS_API_KEY" = true ∧
    ("/BR2+k;L(-aPKA@r%5SO*GzcCm8&Hg6o".length > 10) ∧
    display_value "SMS_API_KEY" "/BR2+k;L(-aPKA@r%5SO*GzcCm8&Hg6o" ≠
      "/BR2+k;L(-aPKA@r%5SO*GzcCm8&Hg6o" :=
  ⟨by decide, by decide,
    (masking_hides_long_values "SMS_API_KEY" "/BR2+k;L(-aPKA@r%5SO*GzcCm8&Hg6o"
      (by decide) (by decide)).2 (by decide)⟩

/-- C5: merging the same patch twice is the same as merging it once,
`dictMerge (dictMerge E P) P = dictMerge E P`, for every environment set
`E` and every patch `P` without duplicate keys (an environment set, being a
dict, never has duplicate keys); the results agree entry for entry. -/
theorem patch_idempotent (E P : Env) (hP : (P.map Prod.fst).Nodup) :
    dictMerge (dictMerge E P) P = dictMerge E P :=
  dictMerge_idem E P hP

/-- C5 witness: idempotence at a concrete fetched set and the script's own
patch. -/
theorem patch_idempotent_witness :
    ((sms_config.map Prod.fst).Nodup) ∧
    dictMerge (dictMerge [("FOO", "bar")] sms_config) sms_config =
      dictMerge [("FOO", "bar")] sms_config :=
  ⟨by decide, patch_idempotent [("FOO", "bar")] sms_config (by decide)⟩

/-- C6: the process exit code is 0 when both provider calls succeed and
the run reaches normal completion (fetch output parses to an environment
set and the confirmation carries the updated variables), and 1 whenever
the fetch call, or the update call of a run that reached it, reports a
non-zero completion status. -/
theorem exit_codes (inp : RunInput) :
    (inp.fetchRC ≠ 0 → (runScript inp).outcome = Outcome.exit 1) ∧
    (inp.fetchRC = 0 → inp.updRC ≠ 0 →
      ∀ env, inp.fetchOut.asEnv = some env →
        (runScript inp).outcome = Outcome.exit 1) ∧
    (inp.fetchRC = 0 → inp.updRC = 0 →
      ∀ env vars, inp.fetchOut.asEnv = some env →
        confirmedVars inp.updOut = some vars →
        (runScript inp).outcome = Outcome.exit 0) := by
  refine ⟨fun h => ?_, fun h0 h2 env h1 => ?_, fun h0 h2 env vars h1 h3 => ?_⟩
  · rw [runScript_fetch_fail inp h]
  · rw [runScript_update_fail inp env h0 h1 h2]
  · rw [runScript_success inp env vars h0 h1 h2 h3]

/-- C6 witness: a failing fetch exits 1; a failing update exits 1; a fully
successful run exits 0. -/
theorem exit_codes_witness :
    (runScript ⟨1, Json.null, "e", 0, Json.null, ""⟩).outcome = Outcome.exit 1 ∧
    (runScript ⟨0, Json.obj [], "", 1, Json.null, "e"⟩).outcome = Outcome.exit 1 ∧
    (runScript ⟨0, Json.obj [], "", 0,
      Json.obj [("Environment", Json.obj [("Variables", Json.obj [])])],
      ""⟩).outcome = Outcome.exit 0 :=
  ⟨(exit_codes ⟨1, Json.null, "e", 0, Json.null, ""⟩).1 (by decide),
   (exit_codes ⟨0, Json.obj [], "", 1, Json.null, "e"⟩).2.1 rfl (by decide) [] rfl,
   (exit_codes ⟨0, Json.obj [], "", 0,
      Json.obj [("Environment", Json.obj [("Variables", Json.obj [])])],
      ""⟩).2.2 rfl rfl [] [] rfl rfl⟩

/-- C7: on a fully successful run, the report iterates over every key of
the confirmed updated set in ascending sorted order, printing one line per
key, and the report is a pure function of the confirmation, hence
deterministic: the standard output ends with `reportLines vars`, whose key
order is the sorted permutation of the confirmed set's keys and whose line
count equals the key count. -/
theorem report_sorted_per_key (inp : RunInput) (env vars : Env)
    (h0 : inp.fetchRC = 0) (h1 : inp.fetchOut.asEnv = some env)
    (h2 : inp.updRC = 0) (h3 : confirmedVars inp.updOut = some vars) :
    (runScript inp).stdout =
      preLines env (dictMerge env sms_config) ++ successHeader ++
        reportLines vars ∧
    reportLines vars = (sortKeys (vars.map Prod.fst)).map (reportLine vars) ∧
    List.Sorted (fun a b => a ≤ b) (sortKeys (vars.map Prod.fst)) ∧
    (sortKeys (vars.map Prod.fst)).Perm (vars.map Prod.fst) ∧
    (reportLines vars).length = (vars.map Prod.fst).length := by
  refine ⟨?_, rfl, ?_, ?_, ?_⟩
  · rw [runScript_success inp env vars h0 h1 h2 h3]
  · exact List.sorted_insertionSort _ _
  · exact List.perm_insertionSort _ _
  · rw [reportLines, List.length_map]
    exact (List.perm_insertionSort _ _).length_eq

/-- C7 witness: a concrete successful run whose confirmed set has keys
"B", "A"; the report keys come out sorted and the standard output ends
with the report lines. -/
theorem report_sorted_per_key_witness :
    List.Sorted (fun a b => a ≤ b)
      (sortKeys (([("B", "x"), ("A", "y")] : Env).map Prod.fst)) ∧
    (runScript ⟨0, Json.obj [], "", 0,
      Json.obj [("Environment",
        Json.obj [("Variables",
          Json.obj [("B", Json.str "x"), ("A", Json.str "y")])])],
      ""⟩).stdout =
      preLines [] (dictMerge [] sms_config) ++ successHeader ++
        reportLines [("B", "x"), ("A", "y")] :=
  have h := report_sorted_per_key
    ⟨0, Json.obj [], "", 0,
      Json.obj [("Environment",
        Json.obj [("Variables",
          Json.obj [("B", Json.str "x"), ("A", Json.str "y")])])],
      ""⟩ [] [("B", "x"), ("A", "y")] rfl rfl rfl rfl
  ⟨h.2.2.1, h.1⟩

/-- C8: if the fetch call succeeds but its structured output is the JSON
literal null, the run terminates abruptly (the script's `len` and dict
merge on `None` raise an uncaught TypeError) with no update call attempted
— the patch is not submitted alone — and only the fetch progress line has
been printed. -/
theorem null_env_crashes (inp : RunInput)
    (h0 : inp.fetchRC = 0) (h1 : inp.fetchOut = Json.null) :
    (runScript inp).outcome = Outcome.crash ∧
    (runScript inp).submitted = none ∧
    (runScript inp).stdout = [fetchLine] := by
  have hn : inp.fetchOut.asEnv = none := by rw [h1]; rfl
  rw [runScript_fetch_null inp h0 hn]
  exact ⟨rfl, rfl, rfl⟩

/-- C8 witness: the abrupt-termination path at a concrete null fetch
output. -/
theorem null_env_crashes_witness :
    (runScript ⟨0, Json.null, "", 0, Json.null, ""⟩).outcome = Outcome.crash ∧
    (runScript ⟨0, Json.null, "", 0, Json.null, ""⟩).submitted = none ∧
    (runScript ⟨0, Json.null, "", 0, Json.null, ""⟩).stdout = [fetchLine] :=
  null_env_crashes ⟨0, Json.null, "", 0, Json.null, ""⟩ rfl rfl

/-- C9: the masking rule, exactly: a sensitive key's value is displayed as
its first 10 characters followed by "..." when longer than 10 characters
and as the fixed string "***" when 10 characters or shorter, and any other
key's value is displayed in full regardless of length. -/
theorem masking_rule_exact (k v : String) :
    (sensitiveKey k = true → v.length > 10 →
      display_value k v = String.mk (v.data.take 10) ++ "...") ∧
    (sensitiveKey k = true → v.length ≤ 10 → display_value k v = "***") ∧
    (sensitiveKey k = false → display_value k v = v) :=
  ⟨display_value_sensitive_long k v, display_value_sensitive_short k v,
   display_value_plain k v⟩

/-- C9 witness: the three masking cases at concrete keys and values. -/
theorem masking_rule_exact_witness :
    display_value "A_KEY" "12345678901" =
      String.mk ("12345678901".data.take 10) ++ "..." ∧
    display_value "A_TOKEN" "short" = "***" ∧
    display_value "NAME" "some-value" = "some-value" :=
  ⟨(masking_rule_exact "A_KEY" "12345678901").1 (by decide) (by decide),
   (masking_rule_exact "A_TOKEN" "short").2.1 (by decide) (by decide),
   (masking_rule_exact "NAME" "some-value").2.2 (by decide)⟩

/-- C10: the pipeline is deterministic in its inputs: two runs whose two
provider calls return the same completion statuses, the same structured
output and the same error text produce identical standard output, the same
outcome and identical standard error output. -/
theorem pipeline_deterministic (i1 i2 : RunInput)
    (h1 : i1.fetchRC = i2.fetchRC) (h2 : i1.fetchOut = i2.fetchOut)
    (h3 : i1.fetchErr = i2.fetchErr) (h4 : i1.updRC = i2.updRC)
    (h5 : i1.updOut = i2.updOut) (h6 : i1.updErr = i2.updErr) :
    (runScript i1).stdout = (runScript i2).stdout ∧
    (runScript i1).outcome = (runScript i2).outcome ∧
    (runScript i1).stderr = (runScript i2).stderr := by
  have he : i1 = i2 := by
    cases i1
    cases i2
    simp_all
  rw [he]
  exact ⟨rfl, rfl, rfl⟩

/-- C10 witness: the determinism theorem at a concrete pair of equal
inputs. -/
theorem pipeline_deterministic_witness :
    (runScript ⟨1, Json.null, "e", 0, Json.null, ""⟩).stdout =
      (runScript ⟨1, Json.null, "e", 0, Json.null, ""⟩).stdout ∧
    (runScript ⟨1, Json.null, "e", 0, Json.null, ""⟩).outcome =
      (runScript ⟨1, Json.null, "e", 0, Json.null, ""⟩).outcome ∧
    (runScript ⟨1, Json.null, "e", 0, Json.null, ""⟩).stderr =
      (runScript ⟨1, Json.null, "e", 0, Json.null, ""⟩).stderr :=
  pipeline_deterministic _ _ rfl rfl rfl rfl rfl rfl

end SmsEnv
